import Mathlib

/-!
Verification of the `everything` crate (src/lib.rs): a query-translation and
result-materialization layer over the external Everything file-index engine.

The pure pieces of the pipeline are embedded shallowly:
- the `Search` specification value and its builder methods;
- range-to-offset/count conversion of `Search::query_range` (u32 arithmetic
  modelled as `Nat` with explicit `% 2^32` at the `as u32` casts and at the
  wrapping additions/subtractions);
- `Item::from_result` (materialization), with the raw engine result modelled
  as a record of already-resolved fallible accessor results, and calls to
  `log::error!` modelled as an explicit list of `LogEvent`s returned next to
  the `Option` result;
- `get_metadata_from_item`, `convert_filetime` and `convert_sort_type`.
-/

namespace Everything

/-- Models `std::ops::Bound<usize>` (a `usize` is a `Nat` here; the
`as u32` truncation is applied where the source applies it). -/
inductive Bound where
  | included (value : Nat)
  | excluded (value : Nat)
  | unbounded
deriving DecidableEq

/-- Modulus of `u32` arithmetic. -/
def U32_MOD : Nat := 4294967296

/-- Value of `u32::MAX`. -/
def U32_MAX : Nat := 4294967295

/-- The `range_start` computation of `Search::query_range` (src/lib.rs:266-270):
`Included(&start) => start as u32`, `Excluded(&start) => start as u32 + 1`,
`Unbounded => 0`, with `as u32` truncation and wrapping `+`. -/
def range_start : Bound → Nat
  | .included s => s % U32_MOD
  | .excluded s => (s % U32_MOD + 1) % U32_MOD
  | .unbounded => 0

/-- The `range_len` computation of `Search::query_range` (src/lib.rs:272-276):
`Included(&end) => end as u32 - range_start + 1`,
`Excluded(&end) => end as u32 - range_start`, `Unbounded => u32::MAX`,
with `as u32` truncation and wrapping `-`/`+` (the release-profile semantics
the spec documents as the caller contract). `start` is the already-computed
`range_start`, hence `start < U32_MOD`. -/
def range_len (upper : Bound) (start : Nat) : Nat :=
  match upper with
  | .included e => ((e % U32_MOD + U32_MOD - start) % U32_MOD + 1) % U32_MOD
  | .excluded e => (e % U32_MOD + U32_MOD - start) % U32_MOD
  | .unbounded => U32_MAX

/-- Models the `SortOrder` enum (src/lib.rs:86-89). -/
inductive SortOrder where
  | Ascending
  | Descending
deriving DecidableEq, Fintype

/-- Models the `SortKey` enum (src/lib.rs:94-104). -/
inductive SortKey where
  | Name
  | TypeName
  | Path
  | Size
  | Extension
  | DateCreated
  | DateModified
  | DateAccessed
  | Attributes
deriving DecidableEq, Fintype

/-- Models the `everything_sdk::SortType` codes targeted by
`convert_sort_type` (the external engine's discrete sort modes). -/
inductive SortType where
  | EVERYTHING_SORT_NAME_ASCENDING
  | EVERYTHING_SORT_NAME_DESCENDING
  | EVERYTHING_SORT_TYPE_NAME_ASCENDING
  | EVERYTHING_SORT_TYPE_NAME_DESCENDING
  | EVERYTHING_SORT_PATH_ASCENDING
  | EVERYTHING_SORT_PATH_DESCENDING
  | EVERYTHING_SORT_SIZE_ASCENDING
  | EVERYTHING_SORT_SIZE_DESCENDING
  | EVERYTHING_SORT_EXTENSION_ASCENDING
  | EVERYTHING_SORT_EXTENSION_DESCENDING
  | EVERYTHING_SORT_DATE_CREATED_ASCENDING
  | EVERYTHING_SORT_DATE_CREATED_DESCENDING
  | EVERYTHING_SORT_DATE_MODIFIED_ASCENDING
  | EVERYTHING_SORT_DATE_MODIFIED_DESCENDING
  | EVERYTHING_SORT_DATE_ACCESSED_ASCENDING
  | EVERYTHING_SORT_DATE_ACCESSED_DESCENDING
  | EVERYTHING_SORT_ATTRIBUTES_ASCENDING
  | EVERYTHING_SORT_ATTRIBUTES_DESCENDING
deriving DecidableEq, Fintype

/-- Embeds `convert_sort_type` (src/lib.rs:430-471): the exhaustive 18-arm
match from `(SortKey, SortOrder)` to the engine sort-mode code. -/
def convert_sort_type (key : SortKey) (order : SortOrder) : SortType :=
  match key, order with
  | .Name, .Ascending => .EVERYTHING_SORT_NAME_ASCENDING
  | .Name, .Descending => .EVERYTHING_SORT_NAME_DESCENDING
  | .TypeName, .Ascending => .EVERYTHING_SORT_TYPE_NAME_ASCENDING
  | .TypeName, .Descending => .EVERYTHING_SORT_TYPE_NAME_DESCENDING
  | .Path, .Ascending => .EVERYTHING_SORT_PATH_ASCENDING
  | .Path, .Descending => .EVERYTHING_SORT_PATH_DESCENDING
  | .Size, .Ascending => .EVERYTHING_SORT_SIZE_ASCENDING
  | .Size, .Descending => .EVERYTHING_SORT_SIZE_DESCENDING
  | .Extension, .Ascending => .EVERYTHING_SORT_EXTENSION_ASCENDING
  | .Extension, .Descending => .EVERYTHING_SORT_EXTENSION_DESCENDING
  | .DateCreated, .Ascending => .EVERYTHING_SORT_DATE_CREATED_ASCENDING
  | .DateCreated, .Descending => .EVERYTHING_SORT_DATE_CREATED_DESCENDING
  | .DateModified, .Ascending => .EVERYTHING_SORT_DATE_MODIFIED_ASCENDING
  | .DateModified, .Descending => .EVERYTHING_SORT_DATE_MODIFIED_DESCENDING
  | .DateAccessed, .Ascending => .EVERYTHING_SORT_DATE_ACCESSED_ASCENDING
  | .DateAccessed, .Descending => .EVERYTHING_SORT_DATE_ACCESSED_DESCENDING
  | .Attributes, .Ascending => .EVERYTHING_SORT_ATTRIBUTES_ASCENDING
  | .Attributes, .Descending => .EVERYTHING_SORT_ATTRIBUTES_DESCENDING

/-- Models the `ItemMetadata` bitflags newtype over `u32` (src/lib.rs:207-223).
The bit positions come from the Everything SDK request-flag constants the
source aliases, so that the flag set can be passed to the engine verbatim. -/
structure ItemMetadata where
  bits : Nat
deriving DecidableEq

/-- Bit of `RequestFlags::EVERYTHING_REQUEST_SIZE`. -/
def ItemMetadata.SIZE : ItemMetadata := ⟨0x00000010⟩

/-- Bit of `RequestFlags::EVERYTHING_REQUEST_DATE_CREATED`. -/
def ItemMetadata.DATE_CREATED : ItemMetadata := ⟨0x00000020⟩

/-- Bit of `RequestFlags::EVERYTHING_REQUEST_DATE_MODIFIED`. -/
def ItemMetadata.DATE_MODIFIED : ItemMetadata := ⟨0x00000040⟩

/-- Bit of `RequestFlags::EVERYTHING_REQUEST_DATE_ACCESSED`. -/
def ItemMetadata.DATE_ACCESSED : ItemMetadata := ⟨0x00000080⟩

/-- Bit of `RequestFlags::EVERYTHING_REQUEST_ATTRIBUTES`. -/
def ItemMetadata.ATTRIBUTES : ItemMetadata := ⟨0x00000100⟩

/-- Empty flag set: the `Default` of the bitflags type. -/
def ItemMetadata.empty : ItemMetadata := ⟨0⟩

/-- Bitwise union, the `BitOr` of the bitflags type. -/
def ItemMetadata.or (a b : ItemMetadata) : ItemMetadata := ⟨a.bits ||| b.bits⟩

instance : HOr ItemMetadata ItemMetadata ItemMetadata := ⟨ItemMetadata.or⟩

/-- The bitflags `contains` test: `self.bits & other.bits == other.bits`. -/
def ItemMetadata.contains (self other : ItemMetadata) : Bool :=
  self.bits &&& other.bits == other.bits

/-- Models the `Search` specification struct (src/lib.rs:43-81); `OsString`
patterns are modelled as `String`. -/
structure Search where
  pattern : String
  regex : Bool
  match_case : Bool
  match_path : Bool
  match_whole_word : Bool
  sort_key : SortKey
  sort_order : SortOrder
  requested_metadata : ItemMetadata
deriving DecidableEq

/-- The derived `Default` of `Search`: every field at its own default
(`#[default]` puts `SortKey::Name` and `SortOrder::Ascending`; the bitflags
default is the empty set). -/
def Search.default : Search :=
  { pattern := ""
    regex := false
    match_case := false
    match_path := false
    match_whole_word := false
    sort_key := .Name
    sort_order := .Ascending
    requested_metadata := ItemMetadata.empty }

/-- Embeds the free function `search` (src/lib.rs:20-25):
pattern plus `..Default::default()`. -/
def search (pattern : String) : Search :=
  { Search.default with pattern := pattern }

/-- Embeds `search_regex` (src/lib.rs:28-34). -/
def search_regex (pattern : String) : Search :=
  { Search.default with pattern := pattern, regex := true }

/-- Embeds `Search::request_metadata` (src/lib.rs:158-161):
`self.requested_metadata |= metadata; self`. -/
def Search.request_metadata (self : Search) (metadata : ItemMetadata) : Search :=
  { self with requested_metadata := self.requested_metadata ||| metadata }

/-- Models one `log::error!` emission of the materialization pipeline:
either the path-retrieval failure log (src/lib.rs:317-322, which names only
the SDK error) or the metadata failure log (src/lib.rs:399-404, which names
the affected path and the SDK error). -/
inductive LogEvent where
  | pathError (cause : String)
  | metadataError (path : String) (cause : String)
deriving DecidableEq

/-- Models `std::time::SystemTime` as a duration past `UNIX_EPOCH`: the
source only ever builds `UNIX_EPOCH + Duration::new(secs, nanos)`. -/
structure SysTime where
  secs : Nat
  nanos : Nat
deriving DecidableEq

/-- Total nanoseconds past the Unix epoch; `SystemTime` ordering agrees
with this value for the in-range durations the source constructs. -/
def SysTime.toNanos (t : SysTime) : Nat :=
  t.secs * 1000000000 + t.nanos

/-- The `SystemTime` of `UNIX_EPOCH` itself. -/
def SysTime.unixEpoch : SysTime := ⟨0, 0⟩

/-- Tick offset between the Windows epoch (1601-01-01) and the Unix epoch
(1970-01-01), in 100-nanosecond intervals (src/lib.rs:419). -/
def FILETIME_UNIX_DIFF : Nat := 116444736000000000

/-- Embeds `convert_filetime` (src/lib.rs:416-425). `u64::saturating_sub`
is truncated `Nat` subtraction; the `as u32` cast on the nanosecond part is
the explicit `% 2^32`. -/
def convert_filetime (filetime : Nat) : SysTime :=
  let unix_100ns := filetime - FILETIME_UNIX_DIFF
  { secs := unix_100ns / 10000000
    nanos := (unix_100ns % 10000000) * 100 % U32_MOD }

/-- Models the `ItemType` enum (src/lib.rs:201-205). -/
inductive ItemType where
  | File
  | Folder
  | Volume
deriving DecidableEq

/-- Models the materialized `Item` record (src/lib.rs:166-197); `PathBuf`
is modelled as `String`, sizes/attributes as `Nat`. -/
structure Item where
  path : String
  item_type : ItemType
  size : Option Nat
  date_created : Option SysTime
  date_modified : Option SysTime
  date_accessed : Option SysTime
  attributes : Option Nat
deriving DecidableEq

deriving instance DecidableEq for Except

/-- Models one raw engine result (`EverythingItem`): each fallible SDK
accessor is modelled by its already-resolved `Except` outcome, and the three
kind predicates by `Bool`s. Timestamps are raw FILETIME tick counts. -/
structure RawItem where
  full_path : Except String String
  is_file : Bool
  is_folder : Bool
  is_volume : Bool
  size : Except String Nat
  date_created : Except String Nat
  date_modified : Except String Nat
  date_accessed : Except String Nat
  attributes : Except String Nat
deriving DecidableEq

/-- Whether the raw item's full-path accessor failed. -/
def RawItem.path_failed (r : RawItem) : Bool :=
  match r.full_path with
  | .error _ => true
  | .ok _ => false

/-- Whether at least one of the three kind predicates is true. -/
def RawItem.has_kind (r : RawItem) : Bool :=
  r.is_file || r.is_folder || r.is_volume

/-- Embeds `get_metadata_from_item` (src/lib.rs:386-411). The `FnOnce`
accessor is represented by its outcome; the function returns the optional
value together with the `log::error!` emissions of this call. -/
def get_metadata_from_item {T : Type} (search : Search) (item_path : String)
    (metadata_flag : ItemMetadata) (metadata_getter : Except String T) :
    Option T × List LogEvent :=
  if search.requested_metadata.contains metadata_flag then
    match metadata_getter with
    | .ok value => (some value, [])
    | .error err => (none, [LogEvent.metadataError item_path err])
  else
    (none, [])

/-- Embeds the body of `Item::from_result` after `result.at(index)?`
(src/lib.rs:316-381): resolve the full path (log and skip on error), collect
the kind candidates in source order File/Folder/Volume, take the first
present one (`flatten().next()`, `?` on none; the `debug_assert_eq!` is a
debug-profile assertion and emits nothing in release), then fill the five
optional metadata fields. Logs are accumulated in source evaluation order. -/
def materialize_raw (search : Search) (item : RawItem) :
    Option Item × List LogEvent :=
  match item.full_path with
  | .error err => (none, [LogEvent.pathError err])
  | .ok path =>
    let item_type_candidates : List (Option ItemType) :=
      [if item.is_file then some ItemType.File else none,
       if item.is_folder then some ItemType.Folder else none,
       if item.is_volume then some ItemType.Volume else none]
    match item_type_candidates.filterMap id with
    | [] => (none, [])
    | item_type :: _ =>
      let size := get_metadata_from_item search path ItemMetadata.SIZE item.size
      let date_created :=
        get_metadata_from_item search path ItemMetadata.DATE_CREATED item.date_created
      let date_modified :=
        get_metadata_from_item search path ItemMetadata.DATE_MODIFIED item.date_modified
      let date_accessed :=
        get_metadata_from_item search path ItemMetadata.DATE_ACCESSED item.date_accessed
      let attributes :=
        get_metadata_from_item search path ItemMetadata.ATTRIBUTES item.attributes
      (some { path := path
              item_type := item_type
              size := size.1
              date_created := date_created.1.map convert_filetime
              date_modified := date_modified.1.map convert_filetime
              date_accessed := date_accessed.1.map convert_filetime
              attributes := attributes.1 },
       size.2 ++ date_created.2 ++ date_modified.2 ++ date_accessed.2 ++ attributes.2)

/-- Embeds `Item::from_result` (src/lib.rs:309-381): `result.at(index)?`
then `materialize_raw`. The engine result set is modelled as the list of
raw items in the returned window, `at` as list lookup. -/
def from_result (search : Search) (result : List RawItem) (index : Nat) :
    Option Item × List LogEvent :=
  match result[index]? with
  | none => (none, [])
  | some item => materialize_raw search item

/-- Embeds the collection loop of `Search::query_range` (src/lib.rs:286-288):
`(0..result.num()).filter_map(|i| Item::from_result(self, &result, i))`,
with `result.num()` the window length. -/
def query_items (search : Search) (result : List RawItem) : List Item :=
  (List.range result.length).filterMap (fun i => (from_result search result i).1)

/-- Fit condition on the lower bound: the values involved stay inside the
`u32` index range, so the `as u32` casts and the `+ 1` do not wrap. -/
def lower_bound_fits : Bound → Prop
  | .included n => n < U32_MOD
  | .excluded n => n + 1 < U32_MOD
  | .unbounded => True

/-- C1 counterexample: the fully-representable pair (unbounded lower bound,
inclusive upper bound `u32::MAX`) is non-inverted with a finite upper bound,
yet the computed count `4294967295 - 0 + 1` wraps to `0`, so
`offset + count - 1` is `0`, not the inclusive upper bound `4294967295`. -/
theorem c1_counterexample :
    range_start Bound.unbounded = 0 ∧
    range_len (Bound.included 4294967295) (range_start Bound.unbounded) = 0 ∧
    range_start Bound.unbounded +
      range_len (Bound.included 4294967295) (range_start Bound.unbounded) - 1
      ≠ 4294967295 := by
  decide

/-- C1 (amended): the engine offset is the inclusive lower bound value, the
exclusive lower bound value + 1, or 0 when unbounded; the engine count is
`u32::MAX` when the upper bound is unbounded; and for every non-inverted
bound pair that fits the `u32` index range, `offset + count - 1` equals the
inclusive upper bound (`e` for `Included e`, `e - 1` for `Excluded e`) —
except at the single corner `offset = 0`, inclusive upper `= u32::MAX`,
where the count wraps to 0 (excluded here by `e - offset < U32_MAX`). -/
theorem c1_range_to_offset_count :
    (∀ n, n < U32_MOD → range_start (Bound.included n) = n) ∧
    (∀ n, n + 1 < U32_MOD → range_start (Bound.excluded n) = n + 1) ∧
    range_start Bound.unbounded = 0 ∧
    (∀ start, range_len Bound.unbounded start = U32_MAX) ∧
    (∀ lb e, lower_bound_fits lb → e < U32_MOD → range_start lb ≤ e →
      e - range_start lb < U32_MAX →
      range_start lb + range_len (Bound.included e) (range_start lb) - 1 = e) ∧
    (∀ lb e, lower_bound_fits lb → e < U32_MOD → range_start lb < e →
      range_start lb + range_len (Bound.excluded e) (range_start lb) - 1 = e - 1) := by
  refine ⟨?_, ?_, rfl, fun _ => rfl, ?_, ?_⟩
  · intro n h
    simp only [range_start, U32_MOD] at *
    omega
  · intro n h
    simp only [range_start, U32_MOD] at *
    omega
  · intro lb e hfit he hle hlt
    cases lb <;>
      simp only [range_start, range_len, lower_bound_fits, U32_MOD, U32_MAX] at * <;>
      omega
  · intro lb e hfit he hlt
    cases lb <;>
      simp only [range_start, range_len, lower_bound_fits, U32_MOD, U32_MAX] at * <;>
      omega

/-- Witness for `c1_range_to_offset_count` at the pair `5..=9`: offset 5,
count 5, and `5 + 5 - 1 = 9`. -/
theorem c1_range_to_offset_count_witness :
    range_start (Bound.included 5) +
      range_len (Bound.included 9) (range_start (Bound.included 5)) - 1 = 9 :=
  c1_range_to_offset_count.2.2.2.2.1 (Bound.included 5) 9
    (by simp only [lower_bound_fits]; decide) (by decide) (by decide) (by decide)

/-- C10: for bounds outside the `u32` index range or inverted pairs, the
conversion performs no validation and signals no error (both functions are
total with plain numeric results): a lower bound at or above `2^32` is
truncated by the `as u32` cast, and an upper bound below the computed start
makes the count wrap around `2^32` instead of underflowing. -/
theorem c10_wrapping_caller_contract :
    (∀ n, U32_MOD ≤ n →
      range_start (Bound.included n) = n % U32_MOD ∧
      range_start (Bound.included n) < n) ∧
    (∀ a b, a < U32_MOD → b < U32_MOD → b < a →
      range_len (Bound.excluded b) (range_start (Bound.included a)) =
        b + U32_MOD - a) ∧
    (∀ a b, a < U32_MOD → b + 1 < a →
      range_len (Bound.included b) (range_start (Bound.included a)) =
        b + 1 + U32_MOD - a) := by
  refine ⟨?_, ?_, ?_⟩
  · intro n h
    refine ⟨rfl, ?_⟩
    simp only [range_start, U32_MOD] at *
    omega
  · intro a b ha hb hba
    simp only [range_start, range_len, U32_MOD] at *
    omega
  · intro a b ha hba
    simp only [range_start, range_len, U32_MOD] at *
    omega

/-- Witness for `c10_wrapping_caller_contract` at the inverted pair
`10..5`: the count wraps to `4294967291` rather than erroring. -/
theorem c10_wrapping_caller_contract_witness :
    range_len (Bound.excluded 5) (range_start (Bound.included 10)) =
      4294967291 :=
  c10_wrapping_caller_contract.2.1 10 5 (by decide) (by decide) (by decide)

/-- Exact value lemma: the conversion's total nanoseconds equal 100 times
the (saturated) tick difference, for every input. -/
lemma convert_filetime_toNanos (filetime : Nat) :
    (convert_filetime filetime).toNanos =
      (filetime - FILETIME_UNIX_DIFF) * 100 := by
  simp only [convert_filetime, SysTime.toNanos, U32_MOD, FILETIME_UNIX_DIFF]
  omega

/-- C4: `convert_filetime` subtracts 116,444,736,000,000,000 with saturating
subtraction, divides by 10,000,000 for whole seconds, multiplies the
remainder by 100 for nanoseconds (the `as u32` cast never truncates there),
is exact for every input at or after the constant (the produced duration is
exactly 100 ns per residual tick), and clamps inputs below the constant to
the Unix epoch instead of panicking or wrapping. -/
theorem c4_convert_filetime_exact :
    ∀ filetime : Nat,
      (convert_filetime filetime).secs =
        (filetime - FILETIME_UNIX_DIFF) / 10000000 ∧
      (convert_filetime filetime).nanos =
        ((filetime - FILETIME_UNIX_DIFF) % 10000000) * 100 ∧
      (convert_filetime filetime).nanos < 1000000000 ∧
      (FILETIME_UNIX_DIFF ≤ filetime →
        (convert_filetime filetime).toNanos =
          (filetime - FILETIME_UNIX_DIFF) * 100) ∧
      (filetime < FILETIME_UNIX_DIFF →
        convert_filetime filetime = SysTime.unixEpoch) := by
  intro filetime
  have hu : (filetime - FILETIME_UNIX_DIFF) % 10000000 < 10000000 :=
    Nat.mod_lt _ (by norm_num)
  have h100 : (filetime - FILETIME_UNIX_DIFF) % 10000000 * 100 < 4294967296 := by
    omega
  refine ⟨rfl, ?_, ?_, fun _ => convert_filetime_toNanos filetime, ?_⟩
  · simp only [convert_filetime, U32_MOD]
    exact Nat.mod_eq_of_lt h100
  · simp only [convert_filetime, U32_MOD]
    rw [Nat.mod_eq_of_lt h100]
    omega
  · intro h
    have hz : filetime - FILETIME_UNIX_DIFF = 0 := by omega
    simp [convert_filetime, hz, SysTime.unixEpoch]

/-- Witness for `c4_convert_filetime_exact` at 123 ticks past the offset
constant: the converted time is exactly 12,300 nanoseconds past the epoch. -/
theorem c4_convert_filetime_exact_witness :
    (convert_filetime (FILETIME_UNIX_DIFF + 123)).toNanos = 12300 := by
  have h := (c4_convert_filetime_exact (FILETIME_UNIX_DIFF + 123)).2.2.2.1
    (by omega)
  omega

/-- C7: the conversion is strictly monotonic on inputs at or after the
offset constant (strictly earlier means strictly fewer nanoseconds past the
Unix epoch, which agrees with `SystemTime` order on the normalized durations
the function builds), and the offset constant itself maps to the Unix epoch
zero point. -/
theorem c7_convert_filetime_monotonic :
    (∀ a b : Nat, FILETIME_UNIX_DIFF ≤ a → FILETIME_UNIX_DIFF ≤ b → a < b →
      (convert_filetime a).toNanos < (convert_filetime b).toNanos) ∧
    convert_filetime FILETIME_UNIX_DIFF = SysTime.unixEpoch := by
  constructor
  · intro a b ha hb hab
    have h1 := convert_filetime_toNanos a
    have h2 := convert_filetime_toNanos b
    omega
  · have hz : FILETIME_UNIX_DIFF - FILETIME_UNIX_DIFF = 0 := by omega
    simp [convert_filetime, hz, SysTime.unixEpoch]

/-- Witness for `c7_convert_filetime_monotonic` at the offset constant and
its successor. -/
theorem c7_convert_filetime_monotonic_witness :
    (convert_filetime FILETIME_UNIX_DIFF).toNanos <
      (convert_filetime (FILETIME_UNIX_DIFF + 1)).toNanos :=
  c7_convert_filetime_monotonic.1 FILETIME_UNIX_DIFF (FILETIME_UNIX_DIFF + 1)
    (Nat.le_refl _) (by omega) (by omega)

/-- C6: `convert_sort_type` is a total Lean function on the 18 pairs (the
source match is exhaustive, with no fallback arm) and is injective: distinct
(key, order) pairs yield distinct engine sort-mode codes. -/
theorem c6_convert_sort_type_injective :
    ∀ p q : SortKey × SortOrder,
      convert_sort_type p.1 p.2 = convert_sort_type q.1 q.2 → p = q := by
  decide

/-- Witness for `c6_convert_sort_type_injective` at a concrete pair. -/
theorem c6_convert_sort_type_injective_witness :
    ((SortKey.Size, SortOrder.Descending) : SortKey × SortOrder) =
      (SortKey.Size, SortOrder.Descending) :=
  c6_convert_sort_type_injective (SortKey.Size, SortOrder.Descending)
    (SortKey.Size, SortOrder.Descending) rfl

/-- C9: `search pattern` keeps the pattern and leaves every other field at
the documented default: non-regex, case-insensitive, partial-path matching,
partial-word matching, sort by name ascending, no metadata requested. -/
theorem c9_search_defaults :
    ∀ pattern : String,
      (search pattern).pattern = pattern ∧
      (search pattern).regex = false ∧
      (search pattern).match_case = false ∧
      (search pattern).match_path = false ∧
      (search pattern).match_whole_word = false ∧
      (search pattern).sort_key = SortKey.Name ∧
      (search pattern).sort_order = SortOrder.Ascending ∧
      (search pattern).requested_metadata = ItemMetadata.empty :=
  fun _ => ⟨rfl, rfl, rfl, rfl, rfl, rfl, rfl, rfl⟩

/-- C8: `request_metadata` accumulates by bitwise union: two chained calls
equal one call with the union of the flag sets; in particular requesting
SIZE then DATE_MODIFIED equals one request of both. -/
theorem c8_request_metadata_union :
    (∀ (s : Search) (x y : ItemMetadata),
      (s.request_metadata x).request_metadata y =
        s.request_metadata (x ||| y)) ∧
    (∀ s : Search,
      (s.request_metadata ItemMetadata.SIZE).request_metadata
          ItemMetadata.DATE_MODIFIED =
        s.request_metadata
          (ItemMetadata.SIZE ||| ItemMetadata.DATE_MODIFIED)) := by
  have h : ∀ (s : Search) (x y : ItemMetadata),
      (s.request_metadata x).request_metadata y =
        s.request_metadata (x ||| y) := by
    intro s x y
    simp only [Search.request_metadata]
    congr 1
    show ItemMetadata.mk (s.requested_metadata.bits ||| x.bits ||| y.bits) =
      ItemMetadata.mk (s.requested_metadata.bits ||| (x.bits ||| y.bits))
    rw [Nat.or_assoc]
  exact ⟨h, fun s => h s ItemMetadata.SIZE ItemMetadata.DATE_MODIFIED⟩

/-- A failing full-path accessor makes `materialize_raw` log the cause and
produce no item. -/
lemma materialize_raw_path_error (sp : Search) (r : RawItem) (err : String)
    (hp : r.full_path = Except.error err) :
    materialize_raw sp r = (none, [LogEvent.pathError err]) := by
  simp [materialize_raw, hp]

/-- With a resolved path but no true kind predicate, `materialize_raw`
produces no item and emits no log. -/
lemma materialize_raw_no_kind (sp : Search) (r : RawItem) (path : String)
    (hp : r.full_path = Except.ok path) (hk : r.has_kind = false) :
    materialize_raw sp r = (none, []) := by
  obtain ⟨fp, isf, isd, isv, sz, dc, dm, da, att⟩ := r
  simp only [RawItem.has_kind] at hk
  cases hp
  cases isf <;> cases isd <;> cases isv <;>
    simp_all [materialize_raw]

/-- With a resolved path and at least one true kind predicate,
`materialize_raw` produces the item whose kind is the first true predicate
in source order File/Folder/Volume. -/
lemma materialize_raw_some (sp : Search) (r : RawItem) (path : String)
    (hp : r.full_path = Except.ok path) (hk : r.has_kind = true) :
    (materialize_raw sp r).1 = some
      { path := path
        item_type :=
          if r.is_file then ItemType.File
          else if r.is_folder then ItemType.Folder
          else ItemType.Volume
        size := (get_metadata_from_item sp path ItemMetadata.SIZE r.size).1
        date_created :=
          (get_metadata_from_item sp path ItemMetadata.DATE_CREATED
            r.date_created).1.map convert_filetime
        date_modified :=
          (get_metadata_from_item sp path ItemMetadata.DATE_MODIFIED
            r.date_modified).1.map convert_filetime
        date_accessed :=
          (get_metadata_from_item sp path ItemMetadata.DATE_ACCESSED
            r.date_accessed).1.map convert_filetime
        attributes :=
          (get_metadata_from_item sp path ItemMetadata.ATTRIBUTES
            r.attributes).1 } := by
  obtain ⟨fp, isf, isd, isv, sz, dc, dm, da, att⟩ := r
  simp only [RawItem.has_kind] at hk
  cases hp
  cases isf <;> cases isd <;> cases isv <;>
    simp_all [materialize_raw]

/-- The materializer yields an item exactly when the path resolved and some
kind predicate is true. -/
lemma materialize_raw_isSome (sp : Search) (r : RawItem) :
    ((materialize_raw sp r).1).isSome = (!r.path_failed && r.has_kind) := by
  cases hp : r.full_path with
  | error err =>
    have h := materialize_raw_path_error sp r err hp
    simp [h, RawItem.path_failed, hp]
  | ok path =>
    cases hk : r.has_kind with
    | false =>
      have h := materialize_raw_no_kind sp r path hp hk
      simp [h, RawItem.path_failed, hp]
    | true =>
      have h := materialize_raw_some sp r path hp hk
      simp [h, RawItem.path_failed, hp]

/-- Indexed `filterMap` over a list's index range equals direct `filterMap`
over the list. -/
lemma range_filterMap_getElem {α β : Type} (g : α → Option β) (l : List α) :
    (List.range l.length).filterMap (fun i => l[i]?.bind g) = l.filterMap g := by
  induction l with
  | nil => simp
  | cons a t ih =>
    rw [List.length_cons, List.range_succ_eq_map]
    cases hga : g a with
    | none =>
      simp [List.filterMap_cons, hga, List.filterMap_map, Function.comp_def,
        List.getElem?_cons_succ, ih]
    | some b =>
      simp [List.filterMap_cons, hga, List.filterMap_map, Function.comp_def,
        List.getElem?_cons_succ, ih]

/-- The collection loop of `query_range` is a `filterMap` of the
materializer over the returned window. -/
lemma query_items_eq (sp : Search) (results : List RawItem) :
    query_items sp results =
      results.filterMap (fun r => (materialize_raw sp r).1) := by
  unfold query_items
  have hfun : (fun i => (from_result sp results i).1) =
      fun i => results[i]?.bind (fun r => (materialize_raw sp r).1) := by
    funext i
    unfold from_result
    cases results[i]? <;> rfl
  rw [hfun, range_filterMap_getElem]

/-- Length of a `filterMap` whose success is the pointwise complement of a
failure predicate. -/
lemma filterMap_length_eq_sub {α β : Type} (g : α → Option β) (p : α → Bool)
    (l : List α) (h : ∀ a ∈ l, (g a).isSome = !(p a)) :
    (l.filterMap g).length = l.length - l.countP p := by
  induction l with
  | nil => simp
  | cons a t ih =>
    have ha := h a (List.mem_cons_self a t)
    have ht : ∀ x ∈ t, (g x).isSome = !(p x) :=
      fun x hx => h x (List.mem_cons_of_mem a hx)
    have hc : t.countP p ≤ t.length := List.countP_le_length p
    have hlen := ih ht
    cases hpa : p a with
    | true =>
      have hga : g a = none := by
        cases hga : g a
        · rfl
        · rw [hga, hpa] at ha
          simp at ha
      simp [List.filterMap_cons, hga, List.countP_cons, hpa, hlen]
    | false =>
      have hga : (g a).isSome = true := by rw [ha, hpa]; rfl
      obtain ⟨b, hb⟩ := Option.isSome_iff_exists.mp hga
      simp [List.filterMap_cons, hb, List.countP_cons, hpa, hlen]
      omega

/-- Concrete specification used by witnesses: `search("*.txt")`, which
requests no metadata. -/
def sample_search : Search := search "*.txt"

/-- Concrete well-formed raw result: path resolves, exactly one kind. -/
def file_raw : RawItem :=
  { full_path := Except.ok "C:/b.txt"
    is_file := true
    is_folder := false
    is_volume := false
    size := Except.ok 1
    date_created := Except.ok 0
    date_modified := Except.ok 0
    date_accessed := Except.ok 0
    attributes := Except.ok 32 }

/-- Concrete raw result violating kind exclusivity: both `is_file` and
`is_folder` report true. -/
def ambiguous_raw : RawItem :=
  { file_raw with full_path := Except.ok "C:/a.txt", is_folder := true }

/-- Concrete raw result whose full-path accessor fails. -/
def failing_raw : RawItem :=
  { file_raw with full_path := Except.error "SDK error" }

/-- C2: `get_metadata_from_item` returns a value exactly when the flag is in
the specification's requested set and the accessor succeeded; an absent flag
yields nothing and no log (the accessor outcome is irrelevant); a failing
accessor under a present flag yields nothing plus one error log naming the
item's path and the cause; and consequently every field of a materialized
`Item` whose flag was excluded is `none`. -/
theorem c2_get_metadata_law :
    ∀ (T : Type) (sp : Search) (item_path : String) (flag : ItemMetadata)
      (getter : Except String T),
      (∀ v, (get_metadata_from_item sp item_path flag getter).1 = some v ↔
        (sp.requested_metadata.contains flag = true ∧
          getter = Except.ok v)) ∧
      (sp.requested_metadata.contains flag = false →
        get_metadata_from_item sp item_path flag getter = (none, [])) ∧
      (∀ err, sp.requested_metadata.contains flag = true →
        getter = Except.error err →
        get_metadata_from_item sp item_path flag getter =
          (none, [LogEvent.metadataError item_path err])) ∧
      (∀ (r : RawItem) (item : Item),
        (materialize_raw sp r).1 = some item →
        (sp.requested_metadata.contains ItemMetadata.SIZE = false →
          item.size = none) ∧
        (sp.requested_metadata.contains ItemMetadata.DATE_CREATED = false →
          item.date_created = none) ∧
        (sp.requested_metadata.contains ItemMetadata.DATE_MODIFIED = false →
          item.date_modified = none) ∧
        (sp.requested_metadata.contains ItemMetadata.DATE_ACCESSED = false →
          item.date_accessed = none) ∧
        (sp.requested_metadata.contains ItemMetadata.ATTRIBUTES = false →
          item.attributes = none)) := by
  intro T sp item_path flag getter
  refine ⟨?_, ?_, ?_, ?_⟩
  · intro v
    cases hcont : sp.requested_metadata.contains flag <;>
      cases getter <;>
        simp [get_metadata_from_item, hcont]
  · intro h
    simp [get_metadata_from_item, h]
  · intro err hcont hget
    subst hget
    simp [get_metadata_from_item, hcont]
  · intro r item hsome
    cases hp : r.full_path with
    | error err =>
      rw [materialize_raw_path_error sp r err hp] at hsome
      simp at hsome
    | ok path =>
      cases hk : r.has_kind with
      | false =>
        rw [materialize_raw_no_kind sp r path hp hk] at hsome
        simp at hsome
      | true =>
        rw [materialize_raw_some sp r path hp hk] at hsome
        have hitem := Option.some.inj hsome
        subst hitem
        refine ⟨?_, ?_, ?_, ?_, ?_⟩ <;>
          intro hflag <;>
            simp [get_metadata_from_item, hflag]

/-- Witness for `c2_get_metadata_law`: `sample_search` requests nothing, so
the size field is absent even though its accessor would succeed. -/
theorem c2_get_metadata_law_witness :
    get_metadata_from_item sample_search "C:/a.txt" ItemMetadata.SIZE
      (Except.ok (5 : Nat)) = (none, []) :=
  (c2_get_metadata_law Nat sample_search "C:/a.txt" ItemMetadata.SIZE
    (Except.ok 5)).2.1 (by decide)

/-- C3 counterexample: `ambiguous_raw` has two kind predicates true, yet the
output of the query window containing it is not empty — the item is
materialized (with the first true kind), not skipped. -/
theorem c3_counterexample :
    ambiguous_raw.is_file = true ∧ ambiguous_raw.is_folder = true ∧
    (query_items sample_search [ambiguous_raw]).length = 1 := by
  decide

/-- C3 (amended): with a resolved path, materialization skips the item
(without logging) exactly when zero kind predicates are true; when at least
one is true — including when several are — an `Item` is produced, its kind
being the first true predicate in the order File, Folder, Volume. In
release builds nothing is logged for a kind-exclusivity violation (the
source guards it only with `debug_assert_eq!`). -/
theorem c3_kind_exclusivity_amended :
    ∀ (sp : Search) (r : RawItem) (path : String),
      r.full_path = Except.ok path →
      ((r.is_file = false ∧ r.is_folder = false ∧ r.is_volume = false →
          materialize_raw sp r = (none, [])) ∧
       (r.has_kind = true → ((materialize_raw sp r).1).isSome = true) ∧
       (∀ item, (materialize_raw sp r).1 = some item →
          item.item_type =
            if r.is_file then ItemType.File
            else if r.is_folder then ItemType.Folder
            else ItemType.Volume)) := by
  intro sp r path hp
  refine ⟨?_, ?_, ?_⟩
  · rintro ⟨h1, h2, h3⟩
    apply materialize_raw_no_kind sp r path hp
    simp [RawItem.has_kind, h1, h2, h3]
  · intro hk
    rw [materialize_raw_isSome]
    simp [RawItem.path_failed, hp, hk]
  · intro item hsome
    cases hk : r.has_kind with
    | false =>
      rw [materialize_raw_no_kind sp r path hp hk] at hsome
      simp at hsome
    | true =>
      rw [materialize_raw_some sp r path hp hk] at hsome
      have hitem := Option.some.inj hsome
      subst hitem
      rfl

/-- Witness for `c3_kind_exclusivity_amended`: the well-formed `file_raw`
materializes. -/
theorem c3_kind_exclusivity_amended_witness :
    ((materialize_raw sample_search file_raw).1).isSome = true :=
  (c3_kind_exclusivity_amended sample_search file_raw "C:/b.txt" rfl).2.1
    (by decide)

/-- C5: a raw result whose full-path accessor fails is logged at error
severity (with the cause) and produces no item; and over a whole returned
window in which every path-resolving result materializes, the output length
is the window length minus the number of path failures — nothing is padded
or retried. -/
theorem c5_path_failure_skip :
    (∀ (sp : Search) (r : RawItem) (err : String),
      r.full_path = Except.error err →
      materialize_raw sp r = (none, [LogEvent.pathError err])) ∧
    (∀ (sp : Search) (results : List RawItem),
      (∀ r ∈ results, r.path_failed = false → r.has_kind = true) →
      (query_items sp results).length =
        results.length - results.countP RawItem.path_failed) := by
  constructor
  · exact fun sp r err hp => materialize_raw_path_error sp r err hp
  · intro sp results hgood
    rw [query_items_eq]
    apply filterMap_length_eq_sub
    intro r hr
    rw [materialize_raw_isSome]
    cases hpf : r.path_failed with
    | false => simp [hgood r hr hpf]
    | true => simp

/-- Witness for `c5_path_failure_skip`: a window of two raw results, one
with a failing path accessor, yields exactly one item. -/
theorem c5_path_failure_skip_witness :
    (query_items sample_search [file_raw, failing_raw]).length = 1 := by
  rw [c5_path_failure_skip.2 sample_search [file_raw, failing_raw]
    (by decide)]
  decide

end Everything
